import Mathlib

/-!
Verification development for the decora_bleak BLE client.

Shallow embedding of custom_components/decora_bleak/decora_bleak_device.py
and custom_components/decora_bleak/light.py.  Asynchronous transport I/O is
modelled by explicit oracles (the value each transport call would produce),
and the side effects of a call (callbacks fired, sleeps performed, cleanup
actions) are returned as explicit event data.  Durations are in milliseconds.
-/

/-- Modelled from the spec: exceptions.py is absent from src/.  Per the spec
error taxonomy (section 7), TransportFailure (the BLEAK transport-library
exception family, carrying free error text) is a class distinct from the
typed errors IncorrectAPIKey, DeviceConnection(Error), NotInPairingMode;
only the bleak constructor belongs to the transport family caught by
"except BLEAK_EXCEPTIONS".  indexError models a Python IndexError. -/
inductive PyErr where
  | bleak (msg : List Char)
  | incorrectAPIKey
  | deviceConnection (msg : List Char)
  | notInPairingMode
  | indexError
deriving DecidableEq

deriving instance DecidableEq for Except

/-- Membership in the BLEAK_EXCEPTIONS transport family (isinstance check of
"except BLEAK_EXCEPTIONS as ex" in decora_bleak_device.py). -/
def isBleakExc : PyErr → Bool
  | .bleak _ => true
  | _ => false

/-- Lowercasing of an error message, modelling Python str(ex).lower(). -/
def lowerChars (msg : List Char) : List Char :=
  msg.map Char.toLower

/-- Substring test on character lists, modelling the Python "kw in msg" test. -/
def hasSub (kw : List Char) : List Char → Bool
  | [] => kw.isEmpty
  | c :: rest => kw.isPrefixOf (c :: rest) || hasSub kw rest

/-- Authorization-class error text test from read_summary_descriptor
(decora_bleak_device.py lines 275-278): the lowercased error text contains
the keyword "authorization" or "authentication". -/
def isAuthMsg (msg : List Char) : Bool :=
  hasSub ("authorization".toList) (lowerChars msg) ||
    hasSub ("authentication".toList) (lowerChars msg)

/-- Authorization-class transport error: a BLEAK-family error whose text
matches the authorization keywords. -/
def isAuthErr : PyErr → Bool
  | .bleak msg => isAuthMsg msg
  | _ => false

/-- Lowercase hex digit for a nibble, as produced by Python bytes.hex(). -/
def hexDigit (n : Nat) : Char :=
  if n < 10 then Char.ofNat (48 + n) else Char.ofNat (87 + n)

/-- Two lowercase hex digits of one byte, as produced by Python bytes.hex(). -/
def hexByte (b : Nat) : List Char :=
  [hexDigit (b / 16 % 16), hexDigit (b % 16)]

/-- Lowercase hex encoding of a byte string, modelling bytearray.hex(). -/
def hexEncode (bs : List Nat) : List Char :=
  bs.foldr (fun b acc => hexByte b ++ acc) []

/-- Modelled from the spec: device_const.py is absent from src/, so the
concrete value of UNPAIRED_API_KEY is unknown; per the spec (section 4.1 and
section 6) it is the 4-byte "device not in pairing mode" sentinel compared
against the response payload bytes 2-5.  The sentinel is therefore taken as
a parameter here.  This function is the key-decision core of
DecoraBLEDevice.get_api_key (decora_bleak_device.py lines 49-52): Python
rawkey[2:6] is (payload.drop 2).take 4 and bytearray(rawkey)[2:].hex() is
hexEncode (payload.drop 2). -/
def get_api_key (sentinel payload : List Nat) : Except PyErr (List Char) :=
  if (payload.drop 2).take 4 ≠ sentinel then
    .ok (hexEncode (payload.drop 2))
  else
    .error .notInPairingMode

/-- Modelled from the spec: models.py is absent from src/.  Field names are
fixed by their keyword use in decora_bleak_device.py (replace(self._state,
is_on=..., brightness_level=...)); the default values follow the spec
section 3 Device State: "Created with default values (off, 0)". -/
structure DecoraBLEDeviceState where
  is_on : Bool := false
  brightness_level : Nat := 0
deriving DecidableEq

/-- Modelled from the spec: models.py is absent from src/.  Field names are
fixed by their keyword use in DecoraBLEDevice._summarize. -/
structure DecoraBLEDeviceSummary where
  system_identifier : List Char
  manufacturer : List Char
  model : List Char
  software_revision : Option (List Char)
deriving DecidableEq

/-- The transport client handle (self._client when not None), exposing the
is_connected flag consulted by the device code. -/
structure ClientState where
  is_connected : Bool
deriving DecidableEq

/-- The mutable fields of DecoraBLEDevice relevant to connection state,
summary, the Device State mirror and observer registrations
(decora_bleak_device.py __init__, lines 31-37).  Callbacks are identified
by abstract numeric ids. -/
structure DeviceCore where
  client : Option ClientState
  summary : Option DecoraBLEDeviceSummary
  state : DecoraBLEDeviceState
  connection_callbacks : List Nat
  state_callbacks : List Nat
deriving DecidableEq

/-- Device object as constructed by DecoraBLEDevice.__init__: no client, no
summary, default Device State, no registered callbacks. -/
def initDevice : DeviceCore :=
  { client := none, summary := none, state := {},
    connection_callbacks := [], state_callbacks := [] }

/-- DecoraBLEDevice._disconnect_cleanup (lines 318-322): clears the client
handle and the summary and resets the Device State mirror to its default;
registered callbacks are kept. -/
def _disconnect_cleanup (m : DeviceCore) : DeviceCore :=
  { m with client := none, summary := none, state := {} }

/-- Result of DecoraBLEDevice.disconnect: the outcome surfaced to the caller
(error means the call raises), the device afterwards, and whether the
transport close was invoked. -/
structure DisconnectOut where
  result : Except PyErr Unit
  dev : DeviceCore
  closeCalled : Bool
deriving DecidableEq

/-- DecoraBLEDevice.disconnect (lines 235-242): close the transport session
when a client exists and reports connected; the finally block runs
_disconnect_cleanup unconditionally; a try/finally without except lets a
failing close propagate after cleanup.  closeRes is the oracle for what
await self._client.disconnect() does. -/
def disconnect (m : DeviceCore) (closeRes : Except PyErr Unit) : DisconnectOut :=
  match m.client with
  | some c =>
    if c.is_connected then
      { result := closeRes, dev := _disconnect_cleanup m, closeCalled := true }
    else
      { result := .ok (), dev := _disconnect_cleanup m, closeCalled := false }
  | none => { result := .ok (), dev := _disconnect_cleanup m, closeCalled := false }

/-- DecoraBLEDevice._fire_state_callbacks (lines 409-411): deliver a state
value to every registered state callback, in registration order. -/
def fireStateCallbacks (m : DeviceCore) (st : DecoraBLEDeviceState) :
    List (Nat × DecoraBLEDeviceState) :=
  m.state_callbacks.map (fun cid => (cid, st))

/-- Result of a state-writing command: the outcome surfaced to the caller,
the device afterwards, the 2-byte packet put on the wire, and the state
callback invocations performed. -/
structure WriteOut where
  result : Except PyErr Unit
  dev : DeviceCore
  packet : List Nat
  firedState : List (Nat × DecoraBLEDeviceState)
deriving DecidableEq

/-- DecoraBLEDevice._write_state (lines 340-344): sets the local mirror to
the requested state first, then writes the encoded 2-byte packet; the write
outcome (writeRes oracle) does not roll the mirror back, and no state
callbacks are fired by this path. -/
def _write_state (m : DeviceCore) (st : DecoraBLEDeviceState)
    (writeRes : Except PyErr Unit) : WriteOut :=
  let m2 := { m with state := st }
  { result := writeRes, dev := m2,
    packet := [if st.is_on then 1 else 0, st.brightness_level],
    firedState := [] }

/-- DecoraBLEDevice.turn_on (lines 305-308): override is_on (and the
brightness level when one is given) on the current mirror and write. -/
def turn_on (m : DeviceCore) (brightness_level : Option Nat)
    (writeRes : Except PyErr Unit) : WriteOut :=
  _write_state m
    { m.state with is_on := true
                   brightness_level := brightness_level.getD m.state.brightness_level }
    writeRes

/-- DecoraBLEDevice.turn_off (lines 310-312). -/
def turn_off (m : DeviceCore) (writeRes : Except PyErr Unit) : WriteOut :=
  _write_state m { m.state with is_on := false } writeRes

/-- DecoraBLEDevice.set_brightness_level (lines 314-316). -/
def set_brightness_level (m : DeviceCore) (brightness_level : Nat)
    (writeRes : Except PyErr Unit) : WriteOut :=
  _write_state m { m.state with brightness_level := brightness_level } writeRes

/-- DecoraBLEDevice._apply_device_state_data (lines 335-338): byte 0 is
on/off (on iff 1), byte 1 is the brightness level; a payload shorter than
2 bytes raises IndexError (modelled as none). -/
def _apply_device_state_data (st : DecoraBLEDeviceState) (data : List Nat) :
    Option DecoraBLEDeviceState :=
  match data with
  | d0 :: d1 :: _ => some { st with is_on := d0 == 1, brightness_level := d1 }
  | _ => none

/-- Result of _read_state: outcome, device afterwards, state callback
invocations performed. -/
structure ReadOut where
  result : Except PyErr Unit
  dev : DeviceCore
  firedState : List (Nat × DecoraBLEDeviceState)
deriving DecidableEq

/-- DecoraBLEDevice._read_state (lines 346-349): read the state
characteristic (readRes oracle), apply the payload to the mirror, then fire
the state callbacks with the new state. -/
def _read_state (m : DeviceCore) (readRes : Except PyErr (List Nat)) : ReadOut :=
  match readRes with
  | .error e => { result := .error e, dev := m, firedState := [] }
  | .ok data =>
    match _apply_device_state_data m.state data with
    | none => { result := .error .indexError, dev := m, firedState := [] }
    | some st =>
      let m2 := { m with state := st }
      { result := .ok (), dev := m2, firedState := fireStateCallbacks m2 st }

/-- Result of the notification callback: device afterwards and state
callback invocations (none when the payload is too short and the decode
raises inside the callback). -/
structure NotifyOut where
  dev : DeviceCore
  firedState : List (Nat × DecoraBLEDeviceState)
deriving DecidableEq

/-- The notification callback installed by
_register_for_state_notifications (lines 352-354): apply the incoming
payload to the mirror, then fire the state callbacks with the new state. -/
def notificationCallback (m : DeviceCore) (data : List Nat) : Option NotifyOut :=
  match _apply_device_state_data m.state data with
  | none => none
  | some st =>
    let m2 := { m with state := st }
    some { dev := m2, firedState := fireStateCallbacks m2 st }

/-- DecoraBLEDevice.register_state_callback (lines 97-108): append the
callback, then (self._state is never None: it is assigned only real states
at construction, cleanup, notification and write) invoke it once with the
current mirror value.  Returns the device afterwards and the invocations
performed at registration time. -/
def register_state_callback (m : DeviceCore) (cid : Nat) :
    DeviceCore × List (Nat × DecoraBLEDeviceState) :=
  ({ m with state_callbacks := m.state_callbacks ++ [cid] }, [(cid, m.state)])

/-- Result of read_summary_descriptor: the outcome, the number of read
attempts performed, and the sleeps performed (milliseconds each). -/
structure RetryOut where
  result : Except PyErr (List Nat)
  readsMade : Nat
  sleeps : List Nat
deriving DecidableEq

/-- Loop body of DecoraBLEDevice.read_summary_descriptor (lines 262-296),
fuel = remaining iterations of the range(3) loop.  reads gives the outcome
of the attempt-indexed read_gatt_char call; conn gives is_connected at the
post-sleep check of the attempt-indexed iteration.  On a BLEAK-family error
whose text is authorization-class the loop retries (sleeping 300 ms, then
aborting with DeviceConnectionError when the client dropped) as long as
attempt is below max_retries - 1 = 2; any other error is raised at once;
when the loop exhausts its attempts the last captured error is raised. -/
def rsdAux (reads : Nat → Except PyErr (List Nat)) (conn : Nat → Bool) :
    Nat → Nat → Option PyErr → Nat → List Nat → RetryOut
  | _, 0, lastE, nReads, sleeps =>
    { result := .error (lastE.getD (.deviceConnection [])), readsMade := nReads,
      sleeps := sleeps }
  | attempt, fuel + 1, _, nReads, sleeps =>
    match reads attempt with
    | .ok v => { result := .ok v, readsMade := nReads + 1, sleeps := sleeps }
    | .error e =>
      if isBleakExc e then
        if isAuthErr e then
          if attempt < 2 then
            if conn attempt then
              rsdAux reads conn (attempt + 1) fuel (some e) (nReads + 1)
                (sleeps ++ [300])
            else
              { result := .error (.deviceConnection []), readsMade := nReads + 1,
                sleeps := sleeps ++ [300] }
          else
            rsdAux reads conn (attempt + 1) fuel (some e) (nReads + 1) sleeps
        else { result := .error e, readsMade := nReads + 1, sleeps := sleeps }
      else { result := .error e, readsMade := nReads + 1, sleeps := sleeps }

/-- DecoraBLEDevice.read_summary_descriptor (lines 262-296): max_retries = 3,
retry_delay = 0.3 s, no error captured yet. -/
def read_summary_descriptor (reads : Nat → Except PyErr (List Nat))
    (conn : Nat → Bool) : RetryOut :=
  rsdAux reads conn 0 3 none 0 []

/-- Observable side effects of the post-unlock phase of _do_connect. -/
inductive ConnEvent where
  | sleepFor (ms : Nat)
  | gateResolve (failure : Option PyErr)
  | clientClose
  | cleanupRun
  | connectionCallbacks
  | stateCallbacks
deriving DecidableEq

/-- Oracle for the transport interactions of the post-unlock phase of
_do_connect: the verification read of the state characteristic, the
notification registration, the summary capture, and the initial state
read. -/
structure Phase2Oracle where
  verifyRead : Except PyErr (List Nat)
  notifyReg : Except PyErr Unit
  summarize : Except PyErr DecoraBLEDeviceSummary
  stateRead : Except PyErr (List Nat)

/-- The BLEAK-except branch of _do_connect (lines 225-233): resolve the
pending-connection gate with the failure, close the client, run
_disconnect_cleanup, and raise IncorrectAPIKeyError. -/
def phase2BleakCatch (m : DeviceCore) (e : PyErr) (evs : List ConnEvent) :
    Except PyErr Unit × DeviceCore × List ConnEvent :=
  (.error .incorrectAPIKey, _disconnect_cleanup m,
    evs ++ [.gateResolve (some e), .clientClose, .cleanupRun])

/-- Post-unlock phase of DecoraBLEDevice._do_connect (lines 197-233):
check the client is still connected (a DeviceConnectionError here is not a
BLEAK-family exception, so it escapes the except clause at line 225 without
any cleanup), sleep 0.5 s, perform the verification read (any failure is
re-raised as IncorrectAPIKeyError at line 212, which again is not
BLEAK-family and escapes without cleanup), register for notifications,
capture the summary, resolve the gate with success, fire the connection
callbacks, and perform the initial state read; BLEAK-family errors from the
latter steps are caught at line 225 and produce gate-resolution, client
close, cleanup and IncorrectAPIKeyError. -/
def doConnectVerifyPhase (m : DeviceCore) (o : Phase2Oracle) :
    Except PyErr Unit × DeviceCore × List ConnEvent :=
  match m.client with
  | none => (.error (.deviceConnection []), m, [])
  | some c =>
    if c.is_connected then
      let ev0 : List ConnEvent := [.sleepFor 500]
      match o.verifyRead with
      | .error _ => (.error .incorrectAPIKey, m, ev0)
      | .ok _ =>
        match o.notifyReg with
        | .error e =>
          if isBleakExc e then phase2BleakCatch m e ev0 else (.error e, m, ev0)
        | .ok _ =>
          match o.summarize with
          | .error e =>
            if isBleakExc e then phase2BleakCatch m e ev0 else (.error e, m, ev0)
          | .ok s =>
            let m2 := { m with summary := some s }
            let ev1 := ev0 ++ [.gateResolve none, .connectionCallbacks]
            match o.stateRead with
            | .error e =>
              if isBleakExc e then phase2BleakCatch m2 e ev1
              else (.error e, m2, ev1)
            | .ok data =>
              match _apply_device_state_data m2.state data with
              | none => (.error .indexError, m2, ev1)
              | some st =>
                let m3 := { m2 with state := st }
                (.ok (), m3, ev1 ++ [.stateCallbacks])
    else (.error (.deviceConnection []), m, [])

/-- The rediscovery-gating fields of DeviceInstance (light.py lines 36-37):
the single-flight guard flag and the monotonic timestamp of the last
reconnection attempt. -/
structure ReconnGate where
  reconnect_task_scheduled : Bool
  last_connection_attempt : ℚ
deriving DecidableEq

/-- Outcome of the gating prologue of _async_reconnect_on_discovery. -/
inductive ReconnDecision where
  | dropCooldown
  | dropScheduled
  | proceed
deriving DecidableEq

/-- Gating prologue of DeviceInstance._async_reconnect_on_discovery
(light.py lines 45-61): drop the signal when the previous attempt was less
than 5 seconds ago; otherwise drop it when a reconnection is already
scheduled; otherwise set the guard flag, record the attempt time, and
proceed to the staggered reconnection attempt. -/
def reconnectOnDiscovery (g : ReconnGate) (now : ℚ) :
    ReconnDecision × ReconnGate :=
  if now - g.last_connection_attempt < 5 then (.dropCooldown, g)
  else if g.reconnect_task_scheduled then (.dropScheduled, g)
  else (.proceed,
    { reconnect_task_scheduled := true, last_connection_attempt := now })

/-- Total list lookup (None when out of range), used by the connect()
scheduler model. -/
def lget {α : Type} : List α → Nat → Option α
  | [], _ => none
  | x :: _, 0 => some x
  | _ :: xs, n + 1 => lget xs n

/-- Program counter of one caller inside DecoraBLEDevice.connect
(decora_bleak_device.py lines 131-157): before the fast-path check, waiting
for the connect lock, holding the lock at the re-check, awaiting an
already-running connection task (line 146), awaiting a connection task the
caller itself created (line 155), or returned (with the observed outcome:
true = connect returned normally, false = it raised). -/
inductive CPC where
  | start
  | waitLock
  | locked
  | awaitJoin (t : Nat)
  | awaitOwn (t : Nat)
  | finished (ok : Bool)
deriving DecidableEq

/-- Cooperative-concurrency state for connect(): the program counter of each
caller task (indexed by position), the holder of self._connect_lock, the
_do_connect task objects ever created (none = still running, some b =
completed, b = succeeded), self._connection_task (an index into tasks), and
self.is_connected. -/
structure ConnSys where
  pcs : List CPC
  lock : Option Nat
  tasks : List (Option Bool)
  slot : Option Nat
  connected : Bool
deriving DecidableEq

/-- Scheduler labels: run caller i up to its next suspension point, or let
running _do_connect task t complete. -/
inductive CLbl where
  | act (i : Nat)
  | complete (t : Nat)
deriving DecidableEq

/-- Replace the program counter of caller i. -/
def setPC (s : ConnSys) (i : Nat) (pc : CPC) : ConnSys :=
  { s with pcs := s.pcs.set i pc }

/-- Line 153: self._connection_task = asyncio.create_task(self._do_connect());
a fresh running task is appended, the slot points at it, and the creator
awaits it (line 155). -/
def createTask (s : ConnSys) (i : Nat) : ConnSys :=
  { s with tasks := s.tasks ++ [none]
           slot := some s.tasks.length
           pcs := s.pcs.set i (.awaitOwn s.tasks.length) }

/-- One small step of the connect() implementation under a cooperative
scheduler.  The oracle gives the outcome of _do_connect task t.  A caller
step is enabled only when the awaited resource is available (lock free,
awaited task done); none means the label is not enabled.  Task completion
(complete t) sets is_connected to the outcome: on success _do_connect
leaves a connected client; on failure it runs _disconnect_cleanup before
raising, so is_connected is false. -/
def stepConn (oracle : Nat → Bool) : CLbl → ConnSys → Option ConnSys
  | .act i, s =>
    match lget s.pcs i with
    | none => none
    | some pc =>
      match pc with
      | .start =>
        if s.connected then some (setPC s i (.finished true))
        else some (setPC s i .waitLock)
      | .waitLock =>
        match s.lock with
        | none => some { setPC s i .locked with lock := some i }
        | some _ => none
      | .locked =>
        if s.connected then
          some { setPC s i (.finished true) with lock := none }
        else
          match s.slot with
          | some t =>
            match lget s.tasks t with
            | some none => some (setPC s i (.awaitJoin t))
            | _ => some (createTask s i)
          | none => some (createTask s i)
      | .awaitJoin t =>
        match lget s.tasks t with
        | some (some true) => some { setPC s i (.finished true) with lock := none }
        | some (some false) => some (createTask s i)
        | _ => none
      | .awaitOwn t =>
        match lget s.tasks t with
        | some (some b) =>
          some { setPC s i (.finished b) with lock := none, slot := none }
        | _ => none
      | .finished _ => none
  | .complete t, s =>
    match lget s.tasks t with
    | some none =>
      some { s with tasks := s.tasks.set t (some (oracle t))
                    connected := oracle t }
    | _ => none

/-- Run a schedule: every label must be enabled in turn. -/
def runConn (oracle : Nat → Bool) : List CLbl → ConnSys → Option ConnSys
  | [], s => some s
  | l :: ls, s =>
    match stepConn oracle l s with
    | none => none
    | some s2 => runConn oracle ls s2

/-- Initial state for n concurrent connect() callers on one freshly
constructed, not-yet-connected device. -/
def initConn (n : Nat) : ConnSys :=
  { pcs := List.replicate n .start, lock := none, tasks := [], slot := none,
    connected := false }

/-- Whether a caller is inside the critical section guarded by
self._connect_lock. -/
def inCS : CPC → Bool
  | .locked => true
  | .awaitJoin _ => true
  | .awaitOwn _ => true
  | _ => false

/-- Inductive invariant of the connect() system: every caller inside the
critical section is the lock holder, and every running _do_connect task is
being awaited by a caller that created it (and so holds the lock). -/
def ConnInv (s : ConnSys) : Prop :=
  (∀ i pc, lget s.pcs i = some pc → inCS pc = true → s.lock = some i) ∧
  (∀ t, lget s.tasks t = some none → ∃ i, lget s.pcs i = some (.awaitOwn t))

/-- A concrete summary value used in concrete evaluations. -/
def exampleSummary : DecoraBLEDeviceSummary :=
  { system_identifier := [], manufacturer := [], model := [],
    software_revision := none }

/-- A freshly constructed device whose transport client is connected (the
situation right after establish_connection and _unlock succeed). -/
def connectedDevice : DeviceCore :=
  { initDevice with client := some { is_connected := true } }

/-- A connected device carrying a summary and a non-default mirror (the
situation while a session is live). -/
def liveDevice : DeviceCore :=
  { client := some { is_connected := true }, summary := some exampleSummary,
    state := { is_on := true, brightness_level := 80 },
    connection_callbacks := [], state_callbacks := [] }

/-- A device with one registered state callback (id 7). -/
def oneObserverDevice : DeviceCore :=
  { initDevice with state_callbacks := [7] }

/-- A phase-2 oracle whose verification read fails with a transport error. -/
def verifyFailOracle : Phase2Oracle :=
  { verifyRead := .error (.bleak ("att error".toList)), notifyReg := .ok (),
    summarize := .ok exampleSummary, stateRead := .ok [1, 50] }

/-- The connect() system state reached after caller 0 creates the first
running attempt (used by a concrete evaluation). -/
def witnessSys : ConnSys :=
  { pcs := [CPC.awaitOwn 0, CPC.start]
    lock := some 0
    tasks := [none]
    slot := some 0
    connected := false }

lemma lget_some_lt {α : Type} {a : α} :
    ∀ {l : List α} {i : Nat}, lget l i = some a → i < l.length := by
  intro l
  induction l with
  | nil => intro i h; simp [lget] at h
  | cons x xs ih =>
    intro i h
    cases i with
    | zero => simp
    | succ n =>
      simp only [lget] at h
      have := ih h
      simpa [Nat.succ_lt_succ_iff] using this

lemma lget_set_ne {α : Type} (a : α) :
    ∀ (l : List α) (i j : Nat), i ≠ j → lget (l.set i a) j = lget l j := by
  intro l
  induction l with
  | nil => intro i j _; simp [List.set]
  | cons x xs ih =>
    intro i j hij
    cases i with
    | zero =>
      cases j with
      | zero => exact absurd rfl hij
      | succ m => simp [List.set, lget]
    | succ n =>
      cases j with
      | zero => simp [List.set, lget]
      | succ m =>
        simp only [List.set, lget]
        exact ih n m (fun h => hij (by rw [h]))

lemma lget_set_self {α : Type} (a : α) :
    ∀ (l : List α) (i : Nat), i < l.length → lget (l.set i a) i = some a := by
  intro l
  induction l with
  | nil => intro i h; simp at h
  | cons x xs ih =>
    intro i h
    cases i with
    | zero => simp [List.set, lget]
    | succ n =>
      simp only [List.set, lget]
      exact ih n (by simpa [Nat.succ_lt_succ_iff] using h)

lemma lget_snoc_self {α : Type} (a : α) :
    ∀ (l : List α), lget (l ++ [a]) l.length = some a := by
  intro l
  induction l with
  | nil => simp [lget]
  | cons x xs ih => simpa [List.cons_append, lget] using ih

lemma lget_snoc_cases {α : Type} {a b : α} :
    ∀ {l : List α} {t : Nat}, lget (l ++ [a]) t = some b →
      lget l t = some b ∨ (t = l.length ∧ b = a) := by
  intro l
  induction l with
  | nil =>
    intro t h
    cases t with
    | zero => right; simp only [List.nil_append, lget] at h; simp_all
    | succ n => simp [lget] at h
  | cons x xs ih =>
    intro t h
    cases t with
    | zero =>
      left; simpa [lget] using h
    | succ n =>
      simp only [List.cons_append, lget] at h ⊢
      rcases ih h with h1 | ⟨h2, h3⟩
      · exact Or.inl h1
      · exact Or.inr ⟨by simp [h2], h3⟩

lemma lget_replicate {α : Type} {a b : α} :
    ∀ {n i : Nat}, lget (List.replicate n a) i = some b → b = a := by
  intro n
  induction n with
  | zero => intro i h; simp [lget] at h
  | succ k ih =>
    intro i h
    cases i with
    | zero => simp [List.replicate, lget] at h; exact h.symm
    | succ m =>
      simp only [List.replicate, lget] at h
      exact ih h

lemma connInv_init (n : Nat) : ConnInv (initConn n) := by
  constructor
  · intro i pc h hcs
    have := lget_replicate h
    subst this
    simp [inCS] at hcs
  · intro t h
    simp [initConn, lget] at h

lemma connInv_preserved {oracle : Nat → Bool} {l : CLbl} {s s2 : ConnSys}
    (hinv : ConnInv s) (hstep : stepConn oracle l s = some s2) : ConnInv s2 := by
  obtain ⟨inv1, inv2⟩ := hinv
  cases l with
  | act i =>
    cases hpc : lget s.pcs i with
    | none => simp [stepConn, hpc] at hstep
    | some pc =>
      have hilen : i < s.pcs.length := lget_some_lt hpc
      cases pc with
      | start =>
        have hs2 : s2 = setPC s i (if s.connected then .finished true else .waitLock) := by
          cases hc : s.connected <;> simp [stepConn, hpc, hc] at hstep <;>
            simp [hstep.symm, hc]
        subst hs2
        constructor
        · intro j pc2 hj hcs
          by_cases hij : i = j
          · subst hij
            rw [setPC, lget_set_self _ _ _ hilen] at hj
            have := Option.some.inj hj
            cases hc : s.connected <;> rw [hc] at this <;> subst this <;>
              simp [inCS] at hcs
          · rw [setPC] at hj
            rw [lget_set_ne _ _ _ _ hij] at hj
            exact inv1 j pc2 hj hcs
        · intro t ht
          obtain ⟨j, hjw⟩ := inv2 t ht
          by_cases hij : i = j
          · subst hij; rw [hpc] at hjw; cases hjw
          · exact ⟨j, by rw [setPC, lget_set_ne _ _ _ _ hij]; exact hjw⟩
      | waitLock =>
        cases hl : s.lock with
        | some k => simp [stepConn, hpc, hl] at hstep
        | none =>
          simp only [stepConn, hpc, hl] at hstep
          injection hstep with hs2
          subst hs2
          constructor
          · intro j pc2 hj _
            by_cases hij : i = j
            · subst hij; rfl
            · simp only [setPC] at hj
              rw [lget_set_ne _ _ _ _ hij] at hj
              have := inv1 j pc2 hj (by assumption)
              rw [hl] at this; cases this
          · intro t ht
            obtain ⟨j, hjw⟩ := inv2 t ht
            by_cases hij : i = j
            · subst hij; rw [hpc] at hjw; cases hjw
            · exact ⟨j, by simp only [setPC]; rw [lget_set_ne _ _ _ _ hij]; exact hjw⟩
      | locked =>
        have hlock : s.lock = some i := inv1 i .locked hpc rfl
        cases hc : s.connected with
        | true =>
          simp only [stepConn, hpc, hc] at hstep
          injection hstep with hs2
          subst hs2
          constructor
          · intro j pc2 hj hcs
            by_cases hij : i = j
            · subst hij
              simp only [setPC] at hj
              rw [lget_set_self _ _ _ hilen] at hj
              have := Option.some.inj hj
              subst this
              simp [inCS] at hcs
            · simp only [setPC] at hj
              rw [lget_set_ne _ _ _ _ hij] at hj
              have := inv1 j pc2 hj hcs
              rw [hlock] at this
              exact absurd (Option.some.inj this) hij
          · intro t ht
            obtain ⟨j, hjw⟩ := inv2 t ht
            have hjlock := inv1 j _ hjw rfl
            rw [hlock] at hjlock
            have hij : i = j := Option.some.inj hjlock
            rw [← hij, hpc] at hjw
            cases hjw
        | false =>
          have hcreate : s2 = createTask s i → ConnInv s2 := by
            intro hs2
            subst hs2
            constructor
            · intro j pc2 hj hcs
              by_cases hij : i = j
              · subst hij
                simp only [createTask] at hj ⊢
                rw [lget_set_self _ _ _ hilen] at hj
                exact hlock
              · simp only [createTask] at hj ⊢
                rw [lget_set_ne _ _ _ _ hij] at hj
                have := inv1 j pc2 hj hcs
                rw [hlock] at this
                exact absurd (Option.some.inj this) hij
            · intro t ht
              simp only [createTask] at ht ⊢
              rcases lget_snoc_cases ht with hold | ⟨hlen, _⟩
              · obtain ⟨j, hjw⟩ := inv2 t hold
                have hjlock := inv1 j _ hjw rfl
                rw [hlock] at hjlock
                have hij : i = j := Option.some.inj hjlock
                rw [← hij, hpc] at hjw
                cases hjw
              · subst hlen
                exact ⟨i, lget_set_self _ _ _ hilen⟩
          cases hslot : s.slot with
          | none =>
            simp only [stepConn, hpc, hc, hslot] at hstep
            simp only [Bool.false_eq_true, if_false] at hstep
            injection hstep with hs2
            exact hcreate hs2.symm
          | some t =>
            cases hT : lget s.tasks t with
            | some ob =>
              cases ob with
              | none =>
                obtain ⟨j, hjw⟩ := inv2 t hT
                have hjlock := inv1 j _ hjw rfl
                rw [hlock] at hjlock
                have hij : i = j := Option.some.inj hjlock
                rw [← hij, hpc] at hjw
                cases hjw
              | some b =>
                simp only [stepConn, hpc, hc, hslot, hT] at hstep
                simp only [Bool.false_eq_true, if_false] at hstep
                injection hstep with hs2
                exact hcreate hs2.symm
            | none =>
              simp only [stepConn, hpc, hc, hslot, hT] at hstep
              simp only [Bool.false_eq_true, if_false] at hstep
              injection hstep with hs2
              exact hcreate hs2.symm
      | awaitJoin t =>
        have hlock : s.lock = some i := inv1 i _ hpc rfl
        have hnorun : ∀ u, lget s.tasks u = some none → False := by
          intro u hu
          obtain ⟨j, hjw⟩ := inv2 u hu
          have hjlock := inv1 j _ hjw rfl
          rw [hlock] at hjlock
          have hij : i = j := Option.some.inj hjlock
          rw [← hij, hpc] at hjw
          exact CPC.noConfusion (Option.some.inj hjw)
        cases hT : lget s.tasks t with
        | none => simp [stepConn, hpc, hT] at hstep
        | some ob =>
          cases ob with
          | none => exact absurd hT (fun h => hnorun t h)
          | some b =>
            cases b with
            | true =>
              simp only [stepConn, hpc, hT] at hstep
              injection hstep with hs2
              subst hs2
              constructor
              · intro j pc2 hj hcs
                by_cases hij : i = j
                · subst hij
                  simp only [setPC] at hj
                  rw [lget_set_self _ _ _ hilen] at hj
                  have := Option.some.inj hj
                  subst this
                  simp [inCS] at hcs
                · simp only [setPC] at hj
                  rw [lget_set_ne _ _ _ _ hij] at hj
                  have := inv1 j pc2 hj hcs
                  rw [hlock] at this
                  exact absurd (Option.some.inj this) hij
              · intro u hu
                exact absurd hu (fun h => hnorun u h)
            | false =>
              simp only [stepConn, hpc, hT] at hstep
              injection hstep with hs2
              subst hs2
              constructor
              · intro j pc2 hj hcs
                by_cases hij : i = j
                · subst hij
                  simp only [createTask] at hj ⊢
                  rw [lget_set_self _ _ _ hilen] at hj
                  exact hlock
                · simp only [createTask] at hj ⊢
                  rw [lget_set_ne _ _ _ _ hij] at hj
                  have := inv1 j pc2 hj hcs
                  rw [hlock] at this
                  exact absurd (Option.some.inj this) hij
              · intro u hu
                simp only [createTask] at hu ⊢
                rcases lget_snoc_cases hu with hold | ⟨hlen, _⟩
                · exact absurd hold (fun h => hnorun u h)
                · subst hlen
                  exact ⟨i, lget_set_self _ _ _ hilen⟩
      | awaitOwn t =>
        have hlock : s.lock = some i := inv1 i _ hpc rfl
        cases hT : lget s.tasks t with
        | none => simp [stepConn, hpc, hT] at hstep
        | some ob =>
          cases ob with
          | none => simp [stepConn, hpc, hT] at hstep
          | some b =>
            simp only [stepConn, hpc, hT] at hstep
            injection hstep with hs2
            subst hs2
            constructor
            · intro j pc2 hj hcs
              by_cases hij : i = j
              · subst hij
                simp only [setPC] at hj
                rw [lget_set_self _ _ _ hilen] at hj
                have := Option.some.inj hj
                subst this
                simp [inCS] at hcs
              · simp only [setPC] at hj
                rw [lget_set_ne _ _ _ _ hij] at hj
                have := inv1 j pc2 hj hcs
                rw [hlock] at this
                exact absurd (Option.some.inj this) hij
            · intro u hu
              have hu2 : lget s.tasks u = some none := hu
              obtain ⟨j, hjw⟩ := inv2 u hu2
              have hjlock := inv1 j _ hjw rfl
              rw [hlock] at hjlock
              have hij : i = j := Option.some.inj hjlock
              rw [← hij, hpc] at hjw
              have htu : t = u := CPC.awaitOwn.inj (Option.some.inj hjw)
              rw [← htu, hT] at hu2
              simp at hu2
      | finished ok => simp [stepConn, hpc] at hstep
  | complete t =>
    cases hT : lget s.tasks t with
    | none => simp [stepConn, hT] at hstep
    | some ob =>
      cases ob with
      | some b => simp [stepConn, hT] at hstep
      | none =>
        have htlen : t < s.tasks.length := lget_some_lt hT
        simp only [stepConn, hT] at hstep
        injection hstep with hs2
        subst hs2
        constructor
        · intro j pc2 hj hcs
          exact inv1 j pc2 hj hcs
        · intro u hu
          by_cases hut : t = u
          · subst hut
            rw [lget_set_self _ _ _ htlen] at hu
            cases Option.some.inj hu
          · rw [lget_set_ne _ _ _ _ hut] at hu
            exact inv2 u hu

lemma connInv_unique_running {s : ConnSys} (hinv : ConnInv s) :
    ∀ t u, lget s.tasks t = some none → lget s.tasks u = some none → t = u := by
  obtain ⟨inv1, inv2⟩ := hinv
  intro t u ht hu
  obtain ⟨i, hi⟩ := inv2 t ht
  obtain ⟨j, hj⟩ := inv2 u hu
  have li : s.lock = some i := inv1 i _ hi rfl
  have lj : s.lock = some j := inv1 j _ hj rfl
  rw [li] at lj
  have hij : i = j := Option.some.inj lj
  subst hij
  rw [hi] at hj
  exact CPC.awaitOwn.inj (Option.some.inj hj)

lemma connInv_run {oracle : Nat → Bool} :
    ∀ (ls : List CLbl) (s0 s : ConnSys), ConnInv s0 →
      runConn oracle ls s0 = some s → ConnInv s := by
  intro ls
  induction ls with
  | nil =>
    intro s0 s h0 hrun
    simp only [runConn] at hrun
    cases Option.some.inj hrun
    exact h0
  | cons l rest ih =>
    intro s0 s h0 hrun
    simp only [runConn] at hrun
    cases hstep : stepConn oracle l s0 with
    | none => rw [hstep] at hrun; cases hrun
    | some s1 =>
      rw [hstep] at hrun
      exact ih s1 s (connInv_preserved h0 hstep) hrun

lemma rsdAux_reads_le (reads : Nat → Except PyErr (List Nat)) (conn : Nat → Bool) :
    ∀ (fuel attempt : Nat) (lastE : Option PyErr) (n : Nat) (sl : List Nat),
      (rsdAux reads conn attempt fuel lastE n sl).readsMade ≤ n + fuel := by
  intro fuel
  induction fuel with
  | zero => intro attempt lastE n sl; simp [rsdAux]
  | succ f ih =>
    intro attempt lastE n sl
    cases hr : reads attempt with
    | ok v => simp [rsdAux, hr] <;> omega
    | error e =>
      cases hb : isBleakExc e with
      | false => simp [rsdAux, hr, hb] <;> omega
      | true =>
        cases ha : isAuthErr e with
        | false => simp [rsdAux, hr, hb, ha] <;> omega
        | true =>
          by_cases hat : attempt < 2
          · cases hcn : conn attempt with
            | false => simp [rsdAux, hr, hb, ha, hat, hcn] <;> omega
            | true =>
              have hrec := ih (attempt + 1) (some e) (n + 1) (sl ++ [300])
              simp [rsdAux, hr, hb, ha, hat, hcn]
              omega
          · have hrec := ih (attempt + 1) (some e) (n + 1) sl
            simp [rsdAux, hr, hb, ha, hat]
            omega

lemma rsdAux_sleeps_300 (reads : Nat → Except PyErr (List Nat)) (conn : Nat → Bool) :
    ∀ (fuel attempt : Nat) (lastE : Option PyErr) (n : Nat) (sl : List Nat),
      (∀ d ∈ sl, d = 300) →
      ∀ d ∈ (rsdAux reads conn attempt fuel lastE n sl).sleeps, d = 300 := by
  intro fuel
  induction fuel with
  | zero => intro attempt lastE n sl hsl; simpa [rsdAux] using hsl
  | succ f ih =>
    intro attempt lastE n sl hsl
    have hsnoc : ∀ d ∈ sl ++ [300], d = 300 := by
      intro d hd
      rcases List.mem_append.mp hd with h1 | h2
      · exact hsl d h1
      · simpa using h2
    cases hr : reads attempt with
    | ok v => simpa [rsdAux, hr] using hsl
    | error e =>
      cases hb : isBleakExc e with
      | false => simpa [rsdAux, hr, hb] using hsl
      | true =>
        cases ha : isAuthErr e with
        | false => simpa [rsdAux, hr, hb, ha] using hsl
        | true =>
          by_cases hat : attempt < 2
          · cases hcn : conn attempt with
            | false => simpa [rsdAux, hr, hb, ha, hat, hcn] using hsnoc
            | true =>
              have hrec := ih (attempt + 1) (some e) (n + 1) (sl ++ [300]) hsnoc
              simpa [rsdAux, hr, hb, ha, hat, hcn] using hrec
          · have hrec := ih (attempt + 1) (some e) (n + 1) sl hsl
            simpa [rsdAux, hr, hb, ha, hat] using hrec

/-- Claim C1, as stated, is false: two concurrent connect() callers can
observe different terminal outcomes.  Concrete schedule: both callers pass
the fast path, caller 0 acquires the lock, creates a _do_connect task that
fails, and returns that failure; caller 1 then acquires the lock, finds no
in-flight task (the failed one was cleared), creates a second task that
succeeds, and returns success. -/
theorem C1_counterexample :
    (runConn (fun t => t == 1)
        [CLbl.act 0, CLbl.act 1, CLbl.act 0, CLbl.act 0, CLbl.complete 0,
          CLbl.act 0, CLbl.act 1, CLbl.act 1, CLbl.complete 1, CLbl.act 1]
        (initConn 2)).map (fun s => s.pcs) =
      some [CPC.finished false, CPC.finished true] := by
  decide

/-- Claim C1 (amended): for every number of concurrent connect() callers,
every completion oracle and every schedule, at most one physical
_do_connect attempt is running at any reachable state (the connect lock and
the in-flight task slot serialize attempts); but a caller that observes a
failed attempt starts a fresh serialized attempt instead of propagating the
failure, so concurrent callers need not observe the same outcome. -/
theorem C1_theorem (oracle : Nat → Bool) (n : Nat) (ls : List CLbl)
    (s : ConnSys) (hrun : runConn oracle ls (initConn n) = some s) :
    ∀ t u, lget s.tasks t = some none → lget s.tasks u = some none → t = u :=
  connInv_unique_running
    (connInv_run ls (initConn n) s (connInv_init n) hrun)

/-- Witness for C1_theorem at a concrete schedule: after caller 0 creates a
running task, that task is the unique running attempt. -/
theorem C1_witness :
    (runConn (fun _ => true) [CLbl.act 0, CLbl.act 0, CLbl.act 0]
        (initConn 2) = some witnessSys) ∧
      (∀ t u, lget witnessSys.tasks t = some none →
        lget witnessSys.tasks u = some none → t = u) :=
  ⟨by decide, C1_theorem (fun _ => true) 2 [CLbl.act 0, CLbl.act 0, CLbl.act 0]
    witnessSys (by decide)⟩

/-- Claim C2: when the post-unlock verification read fails, _do_connect
raises IncorrectAPIKeyError (that half of the claim holds), but because the
IncorrectAPIKeyError raised at line 212 is not a BLEAK-family exception the
handler at line 225 never runs: no gate resolution, no transport close and
no cleanup happen, and the device fields are left untouched — the code
contradicts the claimed (and spec-stated) cleanup behavior. -/
theorem C2_theorem (m : DeviceCore) (c : ClientState) (o : Phase2Oracle)
    (e : PyErr) (hc : m.client = some c) (hconn : c.is_connected = true)
    (hv : o.verifyRead = .error e) :
    doConnectVerifyPhase m o =
      (.error .incorrectAPIKey, m, [ConnEvent.sleepFor 500]) := by
  simp [doConnectVerifyPhase, hc, hconn, hv]

/-- Witness for C2_theorem: a connected device whose verification read
fails with a transport error ends with the device unchanged (client still
set, no cleanup events). -/
theorem C2_witness :
    doConnectVerifyPhase connectedDevice verifyFailOracle =
      (.error .incorrectAPIKey, connectedDevice, [ConnEvent.sleepFor 500]) :=
  C2_theorem connectedDevice { is_connected := true } verifyFailOracle
    (.bleak ("att error".toList)) rfl rfl rfl

/-- Claim C3, as stated, is false: when the transport close fails,
disconnect() propagates the close error to its caller (try/finally without
except does not swallow), so disconnect() can raise. -/
theorem C3_counterexample :
    (disconnect liveDevice (.error (.bleak ("close failed".toList)))).result =
      .error (.bleak ("close failed".toList)) := rfl

/-- Claim C3 (amended): disconnect() unconditionally clears the client
handle and the Device Summary and resets the Device State mirror to its
default, including when the transport close fails — but in that case the
close error propagates to the caller after cleanup; when called while the
client is absent or not connected it is a no-op on the transport and does
not raise. -/
theorem C3_theorem (m : DeviceCore) (closeRes : Except PyErr Unit) :
    ((disconnect m closeRes).dev.client = none ∧
      (disconnect m closeRes).dev.summary = none ∧
      (disconnect m closeRes).dev.state =
        { is_on := false, brightness_level := 0 }) ∧
    ((m.client.map (fun c => c.is_connected)).getD false = false →
      (disconnect m closeRes).result = .ok () ∧
        (disconnect m closeRes).closeCalled = false) ∧
    (closeRes = .ok () → (disconnect m closeRes).result = .ok ()) := by
  cases hc : m.client with
  | none => simp [disconnect, _disconnect_cleanup, hc]
  | some c =>
    cases hcc : c.is_connected with
    | false => simp [disconnect, _disconnect_cleanup, hc, hcc]
    | true =>
      refine ⟨by simp [disconnect, _disconnect_cleanup, hc, hcc], ?_, ?_⟩
      · intro habs
        simp [hcc] at habs
      · intro hok
        simp [disconnect, hc, hcc, hok]

/-- Witness for C3_theorem: on an already-disconnected device, disconnect
returns normally and does not touch the transport. -/
theorem C3_witness :
    (disconnect initDevice (.ok ())).result = .ok () ∧
      (disconnect initDevice (.ok ())).closeCalled = false :=
  (C3_theorem initDevice (.ok ())).2.1 (by decide)

/-- Claim C4: read_summary_descriptor makes at most 3 read attempts with a
0.3 s (300 ms) delay between them; only authorization-class transport
errors are retried; two authorization-class failures followed by a success
return the successful value (3 reads, 2 sleeps); three authorization-class
failures raise the last captured error; a non-authorization transport error
is raised immediately (1 read, no sleep, no retry). -/
theorem C4_theorem (reads : Nat → Except PyErr (List Nat))
    (conn : Nat → Bool) :
    ((read_summary_descriptor reads conn).readsMade ≤ 3) ∧
    (∀ d ∈ (read_summary_descriptor reads conn).sleeps, d = 300) ∧
    (∀ m0 m1 v, isAuthMsg m0 = true → isAuthMsg m1 = true →
      reads 0 = .error (.bleak m0) → reads 1 = .error (.bleak m1) →
      reads 2 = .ok v → conn 0 = true → conn 1 = true →
      (read_summary_descriptor reads conn).result = .ok v ∧
        (read_summary_descriptor reads conn).readsMade = 3 ∧
        (read_summary_descriptor reads conn).sleeps = [300, 300]) ∧
    (∀ m0 m1 m2, isAuthMsg m0 = true → isAuthMsg m1 = true →
      isAuthMsg m2 = true →
      reads 0 = .error (.bleak m0) → reads 1 = .error (.bleak m1) →
      reads 2 = .error (.bleak m2) → conn 0 = true → conn 1 = true →
      (read_summary_descriptor reads conn).result = .error (.bleak m2)) ∧
    (∀ e, isBleakExc e = true → isAuthErr e = false → reads 0 = .error e →
      (read_summary_descriptor reads conn).result = .error e ∧
        (read_summary_descriptor reads conn).readsMade = 1 ∧
        (read_summary_descriptor reads conn).sleeps = []) := by
  refine ⟨rsdAux_reads_le reads conn 3 0 none 0 [],
    rsdAux_sleeps_300 reads conn 3 0 none 0 [] (by simp), ?_, ?_, ?_⟩
  · intro m0 m1 v hA0 hA1 h0 h1 h2 hc0 hc1
    refine ⟨?_, ?_, ?_⟩ <;>
      simp [read_summary_descriptor, rsdAux, h0, h1, h2, hc0, hc1,
        isBleakExc, isAuthErr, hA0, hA1]
  · intro m0 m1 m2 hA0 hA1 hA2 h0 h1 h2 hc0 hc1
    simp [read_summary_descriptor, rsdAux, h0, h1, h2, hc0, hc1,
      isBleakExc, isAuthErr, hA0, hA1, hA2]
  · intro e hB hA h0
    refine ⟨?_, ?_, ?_⟩ <;>
      simp [read_summary_descriptor, rsdAux, h0, hB, hA]

/-- Witness for C4_theorem: a concrete oracle with two authorization-class
failures then a success returns the successful value in 3 reads. -/
theorem C4_witness :
    (read_summary_descriptor
        (fun a => if a < 2 then .error (.bleak ("authorization".toList))
          else .ok [1, 2]) (fun _ => true)).result = .ok [1, 2] ∧
      (read_summary_descriptor
        (fun a => if a < 2 then .error (.bleak ("authorization".toList))
          else .ok [1, 2]) (fun _ => true)).readsMade = 3 :=
  ⟨((C4_theorem _ _).2.2.1 ("authorization".toList) ("authorization".toList)
      [1, 2] (by decide) (by decide) (by decide) (by decide) (by decide)
      rfl rfl).1,
    ((C4_theorem _ _).2.2.1 ("authorization".toList) ("authorization".toList)
      [1, 2] (by decide) (by decide) (by decide) (by decide) (by decide)
      rfl rfl).2.1⟩

/-- Claim C5: _write_state sets the local mirror to the requested value
before the wire write and keeps it there even when the write fails (no
rollback); immediately after turn_on(50) the mirror reports on with
brightness 50 whatever the write outcome, and the packet written is built
from the new state. -/
theorem C5_theorem (m : DeviceCore) (writeRes : Except PyErr Unit)
    (bl : Nat) :
    ((turn_on m (some bl) writeRes).dev.state =
      { is_on := true, brightness_level := bl }) ∧
    ((turn_on m (some bl) writeRes).packet = [1, bl]) ∧
    (∀ st, (_write_state m st writeRes).dev.state = st) ∧
    ((turn_off m writeRes).dev.state = { m.state with is_on := false }) ∧
    (∀ lvl, (set_brightness_level m lvl writeRes).dev.state =
      { m.state with brightness_level := lvl }) :=
  ⟨rfl, rfl, fun _ => rfl, rfl, fun _ => rfl⟩

/-- Claim C6: get_api_key raises the not-in-pairing-mode error exactly when
payload bytes 2-5 equal the sentinel, and otherwise returns the lowercase
hex encoding of the payload bytes from index 2 onward; in particular a
6-byte payload ending in aa bb cc dd (differing from the sentinel) yields
the string aabbccdd. -/
theorem C6_theorem (sentinel payload : List Nat) :
    (get_api_key sentinel payload = .error .notInPairingMode ↔
      (payload.drop 2).take 4 = sentinel) ∧
    ((payload.drop 2).take 4 ≠ sentinel →
      get_api_key sentinel payload = .ok (hexEncode (payload.drop 2))) ∧
    (∀ b0 b1 : Nat, [0xaa, 0xbb, 0xcc, 0xdd] ≠ sentinel →
      get_api_key sentinel [b0, b1, 0xaa, 0xbb, 0xcc, 0xdd] =
        .ok ("aabbccdd".toList)) := by
  refine ⟨⟨?_, ?_⟩, ?_, ?_⟩
  · intro h
    by_cases hs : (payload.drop 2).take 4 = sentinel
    · exact hs
    · simp [get_api_key, hs] at h
  · intro hs
    simp [get_api_key, hs]
  · intro hs
    simp [get_api_key, hs]
  · intro b0 b1 hne
    have hdrop : (([b0, b1, 0xaa, 0xbb, 0xcc, 0xdd] : List Nat)).drop 2 =
        [0xaa, 0xbb, 0xcc, 0xdd] := rfl
    simp only [get_api_key, hdrop]
    rw [if_pos (by simpa using hne)]
    decide

/-- Witness for C6_theorem: with a concrete sentinel differing from the
trailing bytes, the key aabbccdd is produced. -/
theorem C6_witness :
    get_api_key [0, 0, 0, 0] [0, 0, 0xaa, 0xbb, 0xcc, 0xdd] =
      .ok ("aabbccdd".toList) :=
  (C6_theorem [0, 0, 0, 0] [0, 0, 0xaa, 0xbb, 0xcc, 0xdd]).2.2 0 0 (by decide)

/-- Claim C7: a rediscovery signal proceeds to the staggered reconnection
attempt exactly when the previous attempt is at least 5 seconds old and no
reconnection is scheduled; a dropped signal leaves the gate unchanged (no
task scheduled, no timestamp update); an accepted signal sets the
single-flight flag and records the attempt time. -/
theorem C7_theorem (g : ReconnGate) (now : ℚ) :
    ((reconnectOnDiscovery g now).1 = .proceed ↔
      ¬(now - g.last_connection_attempt < 5) ∧
        g.reconnect_task_scheduled = false) ∧
    ((reconnectOnDiscovery g now).1 ≠ .proceed →
      (reconnectOnDiscovery g now).2 = g) ∧
    ((reconnectOnDiscovery g now).1 = .proceed →
      (reconnectOnDiscovery g now).2 =
        { reconnect_task_scheduled := true
          last_connection_attempt := now }) := by
  by_cases hcd : now - g.last_connection_attempt < 5
  · simp [reconnectOnDiscovery, hcd]
  · cases hsch : g.reconnect_task_scheduled with
    | false => simp [reconnectOnDiscovery, hcd, hsch]
    | true => simp [reconnectOnDiscovery, hcd, hsch]

/-- Witness for C7_theorem: 10 seconds after the last attempt with no
reconnection scheduled, the signal proceeds. -/
theorem C7_witness :
    (reconnectOnDiscovery
        { reconnect_task_scheduled := false, last_connection_attempt := 0 }
        10).1 = .proceed :=
  ((C7_theorem
      { reconnect_task_scheduled := false, last_connection_attempt := 0 }
      10).1).2 ⟨by norm_num, rfl⟩

/-- Claim C8, as stated, is false: the optimistic update in turn_on changes
the Device State mirror but fires no state callback — the registered
observer (id 7) receives nothing. -/
theorem C8_counterexample :
    (turn_on oneObserverDevice (some 50) (.ok ())).dev.state =
        { is_on := true, brightness_level := 50 } ∧
      (turn_on oneObserverDevice (some 50) (.ok ())).firedState = [] :=
  ⟨rfl, rfl⟩

/-- Claim C8 (amended): mirror changes made by _read_state and by the
notification callback are fanned out to every registered state callback
with the new state, but the optimistic mirror update performed by
_write_state (and hence turn_on, turn_off, set_brightness_level) fires no
state callbacks — observers see that change only at the next notification
or read. -/
theorem C8_theorem (m : DeviceCore) (d0 d1 : Nat) (rest : List Nat)
    (st : DecoraBLEDeviceState) (writeRes : Except PyErr Unit) :
    ((_read_state m (.ok (d0 :: d1 :: rest))).firedState =
      m.state_callbacks.map (fun cid =>
        (cid, { m.state with is_on := d0 == 1, brightness_level := d1 }))) ∧
    ((_read_state m (.ok (d0 :: d1 :: rest))).dev.state =
      { m.state with is_on := d0 == 1, brightness_level := d1 }) ∧
    ((notificationCallback m (d0 :: d1 :: rest)).map (fun o => o.firedState) =
      some (m.state_callbacks.map (fun cid =>
        (cid, { m.state with is_on := d0 == 1, brightness_level := d1 })))) ∧
    ((notificationCallback m (d0 :: d1 :: rest)).map (fun o => o.dev.state) =
      some { m.state with is_on := d0 == 1, brightness_level := d1 }) ∧
    ((_write_state m st writeRes).firedState = []) ∧
    ((turn_on m (some 50) writeRes).firedState = []) ∧
    ((turn_off m writeRes).firedState = []) ∧
    (∀ lvl, (set_brightness_level m lvl writeRes).firedState = []) :=
  ⟨rfl, rfl, rfl, rfl, rfl, rfl, rfl, fun _ => rfl⟩

/-- Claim C9, as stated, is false: a 6-byte payload is shorter than 7 bytes
yet its bytes 2-5 form a full 4-byte slice, which can equal the (4-byte,
spec-modelled) unpaired sentinel — here instantiated at 00 00 00 00 — so
get_api_key does raise the not-in-pairing-mode error on it. -/
theorem C9_counterexample :
    ([1, 2, 0, 0, 0, 0] : List Nat).length < 7 ∧
      get_api_key [0, 0, 0, 0] [1, 2, 0, 0, 0, 0] =
        .error .notInPairingMode := by
  decide

/-- Claim C9 (amended): for every payload shorter than 6 bytes (so that the
bytes-2-5 slice is strictly shorter than the 4-byte sentinel), get_api_key
does not raise and returns the hex encoding of the bytes from index 2
onward — the empty string for payloads of 2 bytes or fewer; payloads of
exactly 6 bytes can still match the sentinel and raise. -/
theorem C9_theorem (sentinel payload : List Nat)
    (hs : sentinel.length = 4) (hp : payload.length < 6) :
    get_api_key sentinel payload = .ok (hexEncode (payload.drop 2)) ∧
      (payload.length ≤ 2 → hexEncode (payload.drop 2) = []) := by
  have hlen : ((payload.drop 2).take 4).length ≠ sentinel.length := by
    simp only [List.length_take, List.length_drop, hs]
    omega
  have hne : (payload.drop 2).take 4 ≠ sentinel := fun h => hlen (by rw [h])
  refine ⟨by simp [get_api_key, hne], ?_⟩
  intro h2
  have hnil : payload.drop 2 = [] := List.drop_eq_nil_of_le h2
  rw [hnil]
  rfl

/-- Witness for C9_theorem: a one-byte payload yields the empty key without
raising. -/
theorem C9_witness :
    get_api_key [0, 0, 0, 0] [9] =
        .ok (hexEncode (([9] : List Nat).drop 2)) ∧
      hexEncode (([9] : List Nat).drop 2) = [] :=
  ⟨(C9_theorem [0, 0, 0, 0] [9] rfl (by decide)).1,
    (C9_theorem [0, 0, 0, 0] [9] rfl (by decide)).2 (by decide)⟩

/-- Claim C10: register_state_callback invokes the newly registered
callback synchronously exactly once with the current Device State mirror
(and appends it to the observer list); on a freshly constructed device and
after disconnect cleanup the mirror is the default state (off,
brightness 0), so that is the replayed value in those situations. -/
theorem C10_theorem (m : DeviceCore) (cid : Nat) :
    ((register_state_callback m cid).2 = [(cid, m.state)]) ∧
    ((register_state_callback m cid).1.state_callbacks =
      m.state_callbacks ++ [cid]) ∧
    (initDevice.state = { is_on := false, brightness_level := 0 }) ∧
    (∀ m2 : DeviceCore, (_disconnect_cleanup m2).state =
      { is_on := false, brightness_level := 0 }) ∧
    ((register_state_callback initDevice cid).2 =
      [(cid, { is_on := false, brightness_level := 0 })]) ∧
    (∀ m2 : DeviceCore,
      (register_state_callback (_disconnect_cleanup m2) cid).2 =
        [(cid, { is_on := false, brightness_level := 0 })]) :=
  ⟨rfl, rfl, rfl, fun _ => rfl, rfl, fun _ => rfl⟩
